import Mathlib

/-!
Verification of the heating_pid multi-zone heating controller.

The Python source is shallowly embedded: floats become exact rationals,
timestamps become rational minutes (or seconds where the source works in
seconds), `datetime.time` values become seconds-of-day naturals, and the
Home Assistant collaborators (entity registry, schedule helper) are
abstracted into explicit function arguments.  Each definition mirrors one
function of the source tree; the theorems at the end settle the frozen
claims about them.
-/

namespace HeatingPid

/-! ### PID controller — custom_components/ems_zone_master/pid.py -/

/-- Output limits from pid.py (`MIN_OUTPUT`, `MAX_OUTPUT`). -/
def MIN_OUTPUT : ℚ := 0

def MAX_OUTPUT : ℚ := 100

/-- Reference temperature for outdoor compensation (pid.py line 147). -/
def referenceTemp : ℚ := 15

/-- State of `PIDController`: gains, integral, derivative history, timing. -/
structure PIDState where
  kp : ℚ
  ki : ℚ
  kd : ℚ
  ke : ℚ
  integral : ℚ
  last_pv : Option ℚ
  last_time : Option ℚ
  last_output : ℚ
  deriving Repr, DecidableEq

/-- `PIDController.__init__`: gains set, integral 0, no history. -/
def mkPIDController (kp ki kd ke : ℚ) : PIDState :=
  ⟨kp, ki, kd, ke, 0, none, none, 0⟩

/-- Resolution of the `dt` argument in `PIDController.update` (lines 106-110):
an explicit `dt` is used as given, otherwise it is derived from the wall
clock reading and the stored `last_time` (0 on the first call). -/
def resolveDt (s : PIDState) (currentTime : ℚ) (dtArg : Option ℚ) : ℚ :=
  match dtArg with
  | some d => d
  | none =>
    match s.last_time with
    | none => 0
    | some t => currentTime - t

/-- The integral anti-windup block of `PIDController.update` (lines 120-131):
the tentative integral is committed only when the candidate output is
strictly inside the output band, or saturated with the error pointing back. -/
def pidNewIntegral (s : PIDState) (error dt : ℚ) : ℚ :=
  if 0 < dt then
    let potentialIntegral := s.integral + error * dt
    let potentialOutput := s.kp * error + s.ki * potentialIntegral
    if MIN_OUTPUT < potentialOutput ∧ potentialOutput < MAX_OUTPUT then potentialIntegral
    else if potentialOutput ≥ MAX_OUTPUT ∧ error < 0 then potentialIntegral
    else if potentialOutput ≤ MIN_OUTPUT ∧ error > 0 then potentialIntegral
    else s.integral
  else s.integral

/-- `PIDController.update` (pid.py lines 85-178).  Returns the demand output
and the successor state.  `currentTime` is the `time.monotonic()` reading
taken during the call. -/
def pidUpdate (s : PIDState) (currentTime setpoint processVariable : ℚ)
    (outdoorTemp : Option ℚ) (dtArg : Option ℚ) : ℚ × PIDState :=
  let dt := resolveDt s currentTime dtArg
  let error := setpoint - processVariable
  let pTerm := s.kp * error
  let integral := pidNewIntegral s error dt
  let iTerm := s.ki * integral
  let dTerm : ℚ :=
    match s.last_pv with
    | some lastPv => if 0 < dt then -s.kd * (processVariable - lastPv) / dt else 0
    | none => 0
  let base := pTerm + iTerm + dTerm
  let compensated :=
    match outdoorTemp with
    | some ot =>
      if 0 < s.ke ∧ ot < referenceTemp then base * (1 + s.ke * (referenceTemp - ot)) else base
    | none => base
  let output := max MIN_OUTPUT (min MAX_OUTPUT compensated)
  (output,
    { s with
      integral := integral
      last_pv := some processVariable
      last_time := some currentTime
      last_output := output })

/-- One call record fed to `PIDController.update` with `dt` supplied
explicitly (setpoint, process variable, optional outdoor temperature, dt). -/
structure PIDInput where
  setpoint : ℚ
  processVariable : ℚ
  outdoorTemp : Option ℚ
  dt : ℚ
  deriving Repr, DecidableEq

/-- A sequence of `update` calls; `clocks` supplies the wall-clock reading
observed at each call (defaulting to 0 when the list runs out). -/
def pidRun (s : PIDState) (inputs : List PIDInput) (clocks : List ℚ) : List ℚ × PIDState :=
  match inputs with
  | [] => ([], s)
  | i :: rest =>
    let step := pidUpdate s (clocks.headD 0) i.setpoint i.processVariable i.outdoorTemp (some i.dt)
    let tail := pidRun step.2 rest clocks.tail
    (step.1 :: tail.1, tail.2)

/-- Clock-independent observable part of the PID state: gains, integral and
derivative history (everything except `last_time` and `last_output`). -/
def pidObs (s : PIDState) : ℚ × ℚ × ℚ × ℚ × ℚ × Option ℚ :=
  (s.kp, s.ki, s.kd, s.ke, s.integral, s.last_pv)

/-! ### Heater controller — custom_components/heating_pid/heater_controller.py -/

/-- Delta-T threshold for cooldown (const.py `MIN_EFFICIENT_DELTA_T`). -/
def MIN_EFFICIENT_DELTA_T : ℚ := 5

/-- Constructor parameters of `HeaterController`.  Durations are in minutes. -/
structure HeaterConfig where
  min_egress : ℚ
  max_egress : ℚ
  min_ignition_level : ℚ
  quiet_mode_max_flow : ℚ
  quiet_mode_ramp_minutes : ℚ
  ignition_hysteresis : ℚ
  cooldown_hysteresis : ℚ
  min_burner_runtime : ℚ
  min_burner_off_time : ℚ
  deriving Repr, DecidableEq

/-- `HeaterController.__init__` with the Python default keyword arguments
(quiet_mode_max_flow=0, ramp=60, ignition_hysteresis=5,
cooldown_hysteresis=2, min_burner_runtime=5, min_burner_off_time=3). -/
def mkHeaterConfig (minEgress maxEgress minIgnitionLevel : ℚ) : HeaterConfig :=
  ⟨minEgress, maxEgress, minIgnitionLevel, 0, 60, 5, 2, 5, 3⟩

/-- Mutable runtime state of `HeaterController`.  Timestamps are rational
minutes. -/
structure HeaterState where
  heater_was_active : Bool
  cooldown_active : Bool
  burner_started_at : Option ℚ
  burner_stopped_at : Option ℚ
  deriving Repr, DecidableEq

/-- Fresh `HeaterController` runtime state (heater_controller.py lines 78-82). -/
def initialHeaterState : HeaterState :=
  ⟨false, false, none, none⟩

/-- `HeaterController._check_cooldown` (lines 164-223): hysteresis exit when
already in cooldown, otherwise enter on low delta-T while actively firing. -/
def checkCooldown (cfg : HeaterConfig) (cooldownActive : Bool)
    (flowTemp returnTemp : Option ℚ) (maxDemand : ℚ) (heaterWasActive : Bool) : Bool :=
  match flowTemp, returnTemp with
  | some flow, some ret =>
    let deltaT := flow - ret
    let boilerIsResponding := decide (cfg.min_egress ≤ flow)
    if cooldownActive then
      if MIN_EFFICIENT_DELTA_T + cfg.cooldown_hysteresis ≤ deltaT then false else true
    else
      heaterWasActive && boilerIsResponding &&
        decide (deltaT < MIN_EFFICIENT_DELTA_T) && decide (0 < maxDemand)
  | _, _ => false

/-- `HeaterController._get_effective_max_flow` (lines 225-260): quiet-mode
linear ramp from `max(quiet_max_flow, min_egress)` up to `max_egress`. -/
def effectiveMaxFlow (cfg : HeaterConfig) (quietModeActive : Bool)
    (firstBlockStartTime : Option ℚ) (now : ℚ) : ℚ :=
  match quietModeActive, firstBlockStartTime with
  | true, some start =>
    let minutesSinceStart := now - start
    let rampProgress := min 1 (minutesSinceStart / cfg.quiet_mode_ramp_minutes)
    let quietMax := max cfg.quiet_mode_max_flow cfg.min_egress
    quietMax + rampProgress * (cfg.max_egress - quietMax)
  | _, _ => cfg.max_egress

/-- The `burner_should_stay_on` flag (lines 124-127): minimum burner runtime
not yet reached. -/
def burnerShouldStayOn (cfg : HeaterConfig) (st : HeaterState) (now : ℚ) : Bool :=
  match st.burner_started_at with
  | some startedAt => decide (now - startedAt < cfg.min_burner_runtime)
  | none => false

/-- The `burner_should_stay_off` flag (lines 129-132): minimum burner off
time not yet elapsed. -/
def burnerShouldStayOff (cfg : HeaterConfig) (st : HeaterState) (now : ℚ) : Bool :=
  match st.burner_stopped_at with
  | some stoppedAt => decide (now - stoppedAt < cfg.min_burner_off_time)
  | none => false

/-- `HeaterController.calculate_target_flow_temp` (lines 84-162).  Returns
(target temperature, cooldown flag, successor state). -/
def calculateTargetFlowTemp (cfg : HeaterConfig) (st : HeaterState) (maxDemand : ℚ)
    (flowTemp returnTemp : Option ℚ) (quietModeActive : Bool)
    (firstBlockStartTime : Option ℚ) (now : ℚ) : ℚ × Bool × HeaterState :=
  let cooldownActive :=
    checkCooldown cfg st.cooldown_active flowTemp returnTemp maxDemand st.heater_was_active
  let effectiveIgnition :=
    if st.heater_was_active then cfg.min_ignition_level - cfg.ignition_hysteresis
    else cfg.min_ignition_level
  let stayOn := burnerShouldStayOn cfg st now
  let stayOff := burnerShouldStayOff cfg st now
  let shouldBeOff := decide (maxDemand < effectiveIgnition) || cooldownActive || stayOff
  let shouldBeOn := decide (cfg.min_ignition_level ≤ maxDemand) && !cooldownActive
  let targetTemp :=
    if shouldBeOff && !stayOn then (0 : ℚ)
    else if (shouldBeOn || stayOn) && !stayOff then
      cfg.min_egress +
        maxDemand / 100 * (effectiveMaxFlow cfg quietModeActive firstBlockStartTime now - cfg.min_egress)
    else 0
  (targetTemp, cooldownActive, { st with cooldown_active := cooldownActive })

/-! ### Schedule reader — custom_components/ems_zone_master/schedule.py and
custom_components/heating_pid/schedule.py

Times of day are seconds since midnight; weekdays index `WEEKDAY_NAMES`
(0 = Monday).  The schedule helper entity is abstracted as an optional map
from weekday to that day's list of blocks (`None` = entity not found). -/

/-- One schedule block: `from`/`to` times of day in seconds. -/
structure ScheduleBlock where
  fromTime : ℕ
  toTime : ℕ
  deriving Repr, DecidableEq

/-- Membership test of one block, from `_is_time_in_schedule`
(ems_zone_master/schedule.py lines 226-241): same-day `from ≤ t < to`,
overnight (`from > to`) `t ≥ from ∨ t < to`. -/
def timeInBlock (b : ScheduleBlock) (t : ℕ) : Bool :=
  decide (b.fromTime ≤ t ∧ t < b.toTime) ||
    (decide (b.toTime < b.fromTime) && (decide (b.fromTime ≤ t) || decide (t < b.toTime)))

/-- `ScheduleReader._is_time_in_schedule` over the day's block list. -/
def isTimeInSchedule (sched : Fin 7 → List ScheduleBlock) (weekday : Fin 7)
    (timeOfDay : ℕ) : Bool :=
  (sched weekday).any fun b => timeInBlock b timeOfDay

/-- `ScheduleReader.get_current_setpoint`
(ems_zone_master/schedule.py lines 89-108): the reader's `active_setpoint`
inside a block, `default_setpoint` otherwise or when the schedule entity is
missing. -/
def getCurrentSetpoint (defaultSetpoint activeSetpoint : ℚ)
    (sched : Option (Fin 7 → List ScheduleBlock)) (weekday : Fin 7) (timeOfDay : ℕ) : ℚ :=
  match sched with
  | none => defaultSetpoint
  | some s => if isTimeInSchedule s weekday timeOfDay then activeSetpoint else defaultSetpoint

/-- A block of the heating_pid variant, whose `data` field may carry a
per-block `temp` value. -/
structure DataScheduleBlock where
  fromTime : ℕ
  toTime : ℕ
  dataTemp : Option ℚ
  deriving Repr, DecidableEq

/-- `ScheduleReader._get_block_temperature`
(heating_pid/schedule.py lines 159-219): the first block containing `now`
yields its `data["temp"]` (default setpoint when absent); no containing
block yields `None`. -/
def getBlockTemperature (defaultSetpoint : ℚ) (sched : Fin 7 → List DataScheduleBlock)
    (weekday : Fin 7) (timeOfDay : ℕ) : Option ℚ :=
  (sched weekday).findSome? fun b =>
    if timeInBlock ⟨b.fromTime, b.toTime⟩ timeOfDay then
      some (b.dataTemp.getD defaultSetpoint)
    else none

/-! ### Synchronizer — coordinator.py `_apply_synchronization` (lines 609-686)

The per-zone schedule-reader queries (`is_schedule_active`,
`get_time_to_next_active`, `get_next_block_setpoint`) are abstracted into
fields of the zone record; times are rational minutes relative to `now`. -/

/-- const.py `SYNC_LOOK_AHEAD` (minutes). -/
def SYNC_LOOK_AHEAD : ℚ := 45

/-- The zone fields consulted by the synchronization pass. -/
structure SyncZone where
  sync_forced : Bool
  hasScheduleReader : Bool
  current_temp : Option ℚ
  scheduleIsActive : Bool
  manual_setpoint : Option ℚ
  timeToActive : Option ℚ
  nextBlockSetpoint : Option ℚ
  warmup_factor : ℚ
  deriving Repr, DecidableEq

/-- The `required_start_time` computed for an eligible zone
(coordinator.py lines 632-659), `None` when the zone is skipped by one of
the `continue` guards. -/
def requiredStartTime (now : ℚ) (z : SyncZone) : Option ℚ :=
  if !z.hasScheduleReader then none
  else
    match z.current_temp with
    | none => none
    | some currentTemp =>
      if z.scheduleIsActive || z.manual_setpoint.isSome then none
      else
        match z.timeToActive with
        | none => none
        | some timeToActive =>
          match z.nextBlockSetpoint with
          | none => none
          | some targetTemp =>
            let tempDelta := targetTemp - currentTemp
            if tempDelta ≤ 0 then none
            else
              let preheatMinutes := tempDelta * z.warmup_factor
              some (now + timeToActive - preheatMinutes)

/-- A zone's entry in `zone_starts` (lines 661-664): the required start
time when it falls within `[now, now + SYNC_LOOK_AHEAD]`. -/
def collectedStartTime (now : ℚ) (z : SyncZone) : Option ℚ :=
  match requiredStartTime now z with
  | none => none
  | some t => if 0 ≤ t - now ∧ t - now ≤ SYNC_LOOK_AHEAD then some t else none

/-- `_apply_synchronization` (lines 609-686): reset all `sync_forced`
flags, collect the windowed start times, and when more than one exists
with spread at most the window, mark every collected zone whose start is
strictly after the earliest. -/
def applySynchronization (now : ℚ) (zones : List SyncZone) : List SyncZone :=
  let reset := zones.map fun z => { z with sync_forced := false }
  let starts := zones.filterMap (collectedStartTime now)
  if 1 < starts.length then
    match starts.min?, starts.max? with
    | some earliestStart, some latestStart =>
      if latestStart - earliestStart ≤ SYNC_LOOK_AHEAD then
        reset.map fun z =>
          match collectedStartTime now z with
          | some t => if earliestStart < t then { z with sync_forced := true } else z
          | none => z
      else reset
    | _, _ => reset
  else reset

/-! ### Effective-setpoint resolution — coordinator.py `_update_zone_demands`
(lines 828-892), the away > manual > schedule > default priority ladder. -/

/-- Result of the priority resolution: the zone's displayed setpoint and
the adaptive-start flag. -/
structure SetpointResolution where
  setpoint : ℚ
  adaptive_start_active : Bool
  deriving Repr, DecidableEq

/-- The priority ladder of `_update_zone_demands` (lines 828-892). -/
def resolveZoneSetpoint (awayModeActive : Bool) (awayTemp : ℚ)
    (manualSetpoint : Option ℚ) (hasScheduleReader : Bool) (scheduledSetpoint : ℚ)
    (scheduleIsActive : Bool) (timeToActive targetTemp : Option ℚ) (syncForced : Bool)
    (currentTemp warmupFactor defaultSetpoint : ℚ) : SetpointResolution :=
  if awayModeActive then ⟨awayTemp, false⟩
  else
    match manualSetpoint with
    | some m => ⟨m, false⟩
    | none =>
      if hasScheduleReader then
        if !scheduleIsActive then
          match timeToActive, targetTemp with
          | some timeToActive, some target =>
            let tempDelta := target - currentTemp
            if syncForced then ⟨target, true⟩
            else if 0 < tempDelta then
              let preheatMinutes := tempDelta * warmupFactor
              if timeToActive ≤ preheatMinutes then ⟨target, true⟩
              else ⟨scheduledSetpoint, false⟩
            else ⟨scheduledSetpoint, false⟩
          | _, _ => ⟨scheduledSetpoint, false⟩
        else ⟨scheduledSetpoint, false⟩
      else ⟨defaultSetpoint, false⟩

/-! ### Warmup learning — coordinator.py `_track_warmup_learning`
(lines 941-1013).  Times are rational minutes. -/

/-- The zone fields consulted and mutated by warmup tracking. -/
structure WarmupZone where
  warmup_factor : ℚ
  warmup_started_at : Option ℚ
  warmup_start_temp : Option ℚ
  warmup_target_temp : Option ℚ
  demand : ℚ
  current_temp : Option ℚ
  deriving Repr, DecidableEq

/-- Clearing of the three tracking fields (lines 1000-1003 and 1011-1013). -/
def cancelTracking (z : WarmupZone) : WarmupZone :=
  { z with warmup_started_at := none, warmup_start_temp := none, warmup_target_temp := none }

/-- The exponential-smoothing update of lines 984-988:
`alpha * measured + (1 - alpha) * factor` with `alpha = 0.3`. -/
def blendWarmupFactor (measured oldFactor : ℚ) : ℚ :=
  3 / 10 * measured + 7 / 10 * oldFactor

/-- `_track_warmup_learning` (lines 941-1013). -/
def trackWarmupLearning (z : WarmupZone) (targetSetpoint now : ℚ) : WarmupZone :=
  match z.current_temp with
  | none => z
  | some currentTemp =>
    let tempDelta := targetSetpoint - currentTemp
    let atTarget := decide (tempDelta ≤ 1 / 5)
    match z.warmup_started_at with
    | none =>
      if decide (1 / 2 < tempDelta) && decide (10 < z.demand) then
        { z with
          warmup_started_at := some now
          warmup_start_temp := some currentTemp
          warmup_target_temp := some targetSetpoint }
      else z
    | some startedAt =>
      if atTarget && z.warmup_start_temp.isSome then
        let startTemp := z.warmup_start_temp.getD 0
        let elapsed := now - startedAt
        let tempRise := currentTemp - startTemp
        let factor :=
          if 1 / 2 < tempRise then blendWarmupFactor (elapsed / tempRise) z.warmup_factor
          else z.warmup_factor
        { cancelTracking z with warmup_factor := factor }
      else if decide (z.demand < 5) then cancelTracking z
      else z

/-! ### Zone initialization — coordinator.py `_init_zones` (lines 312-410),
the stored-integral validation of lines 330-346. -/

/-- coordinator.py line 336: `max_reasonable_integral = 300.0`. -/
def MAX_REASONABLE_INTEGRAL : ℚ := 300

/-- The integral a freshly initialized zone PID ends up with: the stored
value when present and within the sanity bound, otherwise the reset value 0
(also 0 when nothing was stored, from `PIDController.__init__`). -/
def restoredPidIntegral (stored : Option ℚ) : ℚ :=
  match stored with
  | none => 0
  | some v => if |v| ≤ MAX_REASONABLE_INTEGRAL then v else 0

/-- `_init_zones` restricted to the PID construction and integral restore
(lines 321-346). -/
def initZonePid (kp ki kd ke : ℚ) (stored : Option ℚ) : PIDState :=
  { mkPIDController kp ki kd ke with integral := restoredPidIntegral stored }

/-! ### Valve maintenance check — valve_manager.py
`check_maintenance_needed` (lines 307-339).  Timestamps are rational
minutes; the hour of day is passed separately (`now.hour`). -/

/-- const.py line 88. -/
def VALVE_MAINTENANCE_HOUR : ℕ := 14

/-- const.py line 86. -/
def VALVE_MAINTENANCE_DAYS : ℕ := 7

/-- `ValveManager.check_maintenance_needed` (lines 307-339). -/
def checkMaintenanceNeeded (lastValveActivity : Option ℚ) (maintenancePending : Bool)
    (nowHour : ℕ) (nowMinutes : ℚ) : Bool :=
  if nowHour ≠ VALVE_MAINTENANCE_HOUR then false
  else
    let thresholdMinutes : ℚ := (VALVE_MAINTENANCE_DAYS : ℚ) * 24 * 60
    let recentlyActive :=
      match lastValveActivity with
      | some lastActivity => decide (nowMinutes - lastActivity < thresholdMinutes)
      | none => false
    if recentlyActive then false
    else if maintenancePending then false
    else true

/-! ### Away mode — coordinator.py `_update_away_mode` (lines 687-724).

The presence entity reading is the raw state string (`None` = entity not
found); times are rational minutes. -/

/-- Line 707: home iff the state string is "on" or "home". -/
def isHomeState (s : String) : Bool :=
  s == "on" || s == "home"

/-- Away-mode coordinator state (`_away_mode_active`, `_presence_lost_at`). -/
structure AwayState where
  away_mode_active : Bool
  presence_lost_at : Option ℚ
  deriving Repr, DecidableEq

/-- Initial coordinator away state (lines 240-241). -/
def initialAwayState : AwayState :=
  ⟨false, none⟩

/-- `_update_away_mode` for one tick (lines 687-724). -/
def updateAwayMode (presenceConfigured : Bool) (awayDelay : ℚ) (s : AwayState)
    (reading : Option String) (now : ℚ) : AwayState :=
  if !presenceConfigured then { s with away_mode_active := false }
  else
    match reading with
    | none => s
    | some stateStr =>
      if isHomeState stateStr then ⟨false, none⟩
      else
        let lostAt := s.presence_lost_at.getD now
        let minutesAway := now - lostAt
        if decide (awayDelay ≤ minutesAway) && !s.away_mode_active then ⟨true, some lostAt⟩
        else ⟨s.away_mode_active, some lostAt⟩

/-- A sequence of `_update_away_mode` ticks, each with its presence reading
and time. -/
def runAwayMode (presenceConfigured : Bool) (awayDelay : ℚ) (s : AwayState)
    (events : List (Option String × ℚ)) : AwayState :=
  events.foldl (fun acc e => updateAwayMode presenceConfigured awayDelay acc e.1 e.2) s

/-- An event whose reading is a present, non-home state string. -/
def observedAbsence (e : Option String × ℚ) : Prop :=
  ∃ stateStr, e.1 = some stateStr ∧ isHomeState stateStr = false

/-- No event of the list reports a home state. -/
def neverHome (events : List (Option String × ℚ)) : Prop :=
  ∀ e ∈ events, ∀ stateStr, e.1 = some stateStr → isHomeState stateStr = false

/-- `t0` is the time of the first tick observing absence since the last
home report: the trace splits around an absence event at `t0`, the state
before it had no pending presence-lost timestamp, and no later event
reports home. -/
def firstAbsenceAt (awayDelay : ℚ) (events : List (Option String × ℚ)) (t0 : ℚ) : Prop :=
  ∃ pre e post, events = pre ++ e :: post ∧ e.2 = t0 ∧ observedAbsence e ∧
    (runAwayMode true awayDelay initialAwayState pre).presence_lost_at = none ∧
    neverHome post

/-- Some tick observed absence at least `awayDelay` minutes after `t0`. -/
def awayActivationJustified (awayDelay : ℚ) (events : List (Option String × ℚ)) (t0 : ℚ) : Prop :=
  ∃ e ∈ events, observedAbsence e ∧ awayDelay ≤ e.2 - t0

/-! ### Concrete instances used by the examples in the claims -/

/-- A weekly schedule with a single Monday block 07:00-09:00
(weekday 0 = Monday; times in seconds of day). -/
def mondaySched : Fin 7 → List ScheduleBlock :=
  fun d => if d.val = 0 then [⟨25200, 32400⟩] else []

/-- The same Monday block carrying `data.temp = 21` (heating_pid variant). -/
def mondayDataSched : Fin 7 → List DataScheduleBlock :=
  fun d => if d.val = 0 then [⟨25200, 32400, some 21⟩] else []

/-- Synchronization example zone needing to start at `now + 10` minutes
(time to active 20 min, 0.5 °C to gain at 20 min/°C). -/
def zoneA : SyncZone :=
  ⟨false, true, some (39 / 2), false, none, some 20, some 20, 20⟩

/-- Synchronization example zone needing to start at `now + 40` minutes
(time to active 60 min, 1 °C to gain at 20 min/°C). -/
def zoneB : SyncZone :=
  ⟨false, true, some 19, false, none, some 60, some 20, 20⟩

/-! ### Helper lemmas -/

/-- The integral stored by `pidUpdate` is exactly the anti-windup block. -/
lemma pidUpdate_integral (s : PIDState) (currentTime setpoint processVariable : ℚ)
    (outdoorTemp dtArg : Option ℚ) :
    (pidUpdate s currentTime setpoint processVariable outdoorTemp dtArg).2.integral =
      pidNewIntegral s (setpoint - processVariable) (resolveDt s currentTime dtArg) := rfl

/-- Resetting the `sync_forced` flag does not change a zone's collected
start time (the flag is not consulted by the computation). -/
lemma collectedStartTime_reset (now : ℚ) (z : SyncZone) :
    collectedStartTime now { z with sync_forced := false } = collectedStartTime now z := by
  obtain ⟨sf, hs, ct, sa, ms, tta, nbs, wf⟩ := z
  rfl

/-- One `pidUpdate` call with explicit `dt` is insensitive to the wall
clock: two states agreeing on `pidObs` produce equal outputs and equal
observable successor states under arbitrary clock readings. -/
lemma pidUpdate_deterministic (s1 s2 : PIDState) (h : pidObs s1 = pidObs s2)
    (c1 c2 sp pv : ℚ) (ot : Option ℚ) (d : ℚ) :
    (pidUpdate s1 c1 sp pv ot (some d)).1 = (pidUpdate s2 c2 sp pv ot (some d)).1 ∧
    pidObs (pidUpdate s1 c1 sp pv ot (some d)).2 = pidObs (pidUpdate s2 c2 sp pv ot (some d)).2 := by
  obtain ⟨kp1, ki1, kd1, ke1, i1, lp1, lt1, lo1⟩ := s1
  obtain ⟨kp2, ki2, kd2, ke2, i2, lp2, lt2, lo2⟩ := s2
  simp only [pidObs, Prod.mk.injEq] at h
  obtain ⟨h1, h2, h3, h4, h5, h6⟩ := h
  subst h1
  subst h2
  subst h3
  subst h4
  subst h5
  subst h6
  exact ⟨rfl, rfl⟩

/-- Unfolding of `runAwayMode` over a final event. -/
lemma runAwayMode_append (pc : Bool) (d : ℚ) (s : AwayState)
    (es : List (Option String × ℚ)) (e : Option String × ℚ) :
    runAwayMode pc d s (es ++ [e]) = updateAwayMode pc d (runAwayMode pc d s es) e.1 e.2 := by
  simp [runAwayMode, List.foldl_append]

/-- Trace invariant of `_update_away_mode` runs from the initial state:
a recorded presence-lost timestamp marks the first absence observation
since the last home report, and an active away mode is justified by an
absence observation at least the delay after that timestamp. -/
lemma away_mode_invariant (d : ℚ) (events : List (Option String × ℚ)) :
    (∀ t0, (runAwayMode true d initialAwayState events).presence_lost_at = some t0 →
      firstAbsenceAt d events t0) ∧
    ((runAwayMode true d initialAwayState events).away_mode_active = true →
      ∃ t0, (runAwayMode true d initialAwayState events).presence_lost_at = some t0 ∧
        awayActivationJustified d events t0) := by
  induction events using List.reverseRecOn with
  | nil =>
    constructor
    · intro t0 h
      simp [runAwayMode, initialAwayState] at h
    · intro h
      simp [runAwayMode, initialAwayState] at h
  | append_singleton es e ih =>
    obtain ⟨r, t⟩ := e
    rw [runAwayMode_append]
    dsimp only
    cases r with
    | none =>
      simp only [updateAwayMode, Bool.not_true, Bool.false_eq_true, if_false]
      constructor
      · intro t0 h
        obtain ⟨pre, ev, post, hsplit, htime, habs, hpre, hnh⟩ := ih.1 t0 h
        refine ⟨pre, ev, post ++ [(none, t)], ?_, htime, habs, hpre, ?_⟩
        · rw [hsplit]
          simp
        · intro p hp str hstr
          rcases List.mem_append.1 hp with hp | hp
          · exact hnh p hp str hstr
          · simp at hp
            rw [hp] at hstr
            simp at hstr
      · intro h
        obtain ⟨t0, hlost, ev, hev, habs, hdelay⟩ := ih.2 h
        exact ⟨t0, hlost, ev, List.mem_append_left _ hev, habs, hdelay⟩
    | some str =>
      cases hh : isHomeState str with
      | true =>
        simp only [updateAwayMode, Bool.not_true, Bool.false_eq_true, if_false, hh, if_true]
        constructor
        · intro t0 h
          simp at h
        · intro h
          simp at h
      | false =>
        simp only [updateAwayMode, Bool.not_true, Bool.false_eq_true, if_false, hh]
        cases hlost : (runAwayMode true d initialAwayState es).presence_lost_at with
        | some t0old =>
          have hfa : firstAbsenceAt d (es ++ [(some str, t)]) t0old := by
            obtain ⟨pre, ev, post, hsplit, htime, habs, hpre, hnh⟩ := ih.1 t0old hlost
            refine ⟨pre, ev, post ++ [(some str, t)], ?_, htime, habs, hpre, ?_⟩
            · rw [hsplit]
              simp
            · intro p hp str2 hstr
              rcases List.mem_append.1 hp with hp | hp
              · exact hnh p hp str2 hstr
              · simp at hp
                rw [hp] at hstr
                simp at hstr
                rw [← hstr]
                exact hh
          simp only [hlost, Option.getD_some]
          cases hcond : (decide (d ≤ t - t0old) && !(runAwayMode true d initialAwayState es).away_mode_active) with
          | true =>
            simp only [if_true]
            constructor
            · intro t0 h
              simp only [Option.some.injEq] at h
              rw [← h]
              exact hfa
            · intro _
              refine ⟨t0old, rfl, (some str, t), List.mem_append_right _ (by simp), ⟨str, rfl, hh⟩, ?_⟩
              rw [Bool.and_eq_true] at hcond
              exact of_decide_eq_true hcond.1
          | false =>
            simp only [Bool.false_eq_true, if_false]
            constructor
            · intro t0 h
              simp only [Option.some.injEq] at h
              rw [← h]
              exact hfa
            · intro h
              obtain ⟨t0, hlost2, ev, hev, habs, hdelay⟩ := ih.2 h
              rw [hlost] at hlost2
              simp only [Option.some.injEq] at hlost2
              exact ⟨t0, by rw [hlost2], ev, List.mem_append_left _ hev, habs, hdelay⟩
        | none =>
          simp only [hlost, Option.getD_none]
          have hfa : firstAbsenceAt d (es ++ [(some str, t)]) t := by
            exact ⟨es, (some str, t), [], rfl, rfl, ⟨str, rfl, hh⟩, hlost, by intro p hp; simp at hp⟩
          cases hcond : (decide (d ≤ t - t) && !(runAwayMode true d initialAwayState es).away_mode_active) with
          | true =>
            simp only [if_true]
            constructor
            · intro t0 h
              simp only [Option.some.injEq] at h
              rw [← h]
              exact hfa
            · intro _
              refine ⟨t, rfl, (some str, t), List.mem_append_right _ (by simp), ⟨str, rfl, hh⟩, ?_⟩
              rw [Bool.and_eq_true] at hcond
              exact of_decide_eq_true hcond.1
          | false =>
            simp only [Bool.false_eq_true, if_false]
            constructor
            · intro t0 h
              simp only [Option.some.injEq] at h
              rw [← h]
              exact hfa
            · intro h
              obtain ⟨t0, hlost2, _⟩ := ih.2 h
              rw [hlost] at hlost2
              simp at hlost2

/-! ### Claim theorems -/

/-- C1: for every `PIDController.update` call whose resolved `dt` is
positive, the tentative integral `integral + error·dt` is committed exactly
when the candidate output `Kp·error + Ki·(integral + error·dt)` is strictly
inside `(0, 100)`, or is at least 100 with `error < 0`, or is at most 0
with `error > 0`; a call with resolved `dt ≤ 0` leaves the integral
unchanged. -/
theorem pid_integral_antiwindup (s : PIDState) (currentTime setpoint processVariable : ℚ)
    (outdoorTemp dtArg : Option ℚ) (error dt candidate : ℚ)
    (herr : error = setpoint - processVariable)
    (hdt : dt = resolveDt s currentTime dtArg)
    (hcand : candidate = s.kp * error + s.ki * (s.integral + error * dt)) :
    (0 < dt →
      ((0 < candidate ∧ candidate < 100) ∨ (100 ≤ candidate ∧ error < 0) ∨
          (candidate ≤ 0 ∧ 0 < error) →
        (pidUpdate s currentTime setpoint processVariable outdoorTemp dtArg).2.integral =
          s.integral + error * dt) ∧
      (¬ ((0 < candidate ∧ candidate < 100) ∨ (100 ≤ candidate ∧ error < 0) ∨
          (candidate ≤ 0 ∧ 0 < error)) →
        (pidUpdate s currentTime setpoint processVariable outdoorTemp dtArg).2.integral =
          s.integral)) ∧
    (dt ≤ 0 →
      (pidUpdate s currentTime setpoint processVariable outdoorTemp dtArg).2.integral =
        s.integral) := by
  subst herr
  subst hdt
  subst hcand
  rw [pidUpdate_integral]
  unfold pidNewIntegral MIN_OUTPUT MAX_OUTPUT
  constructor
  · intro hdtpos
    rw [if_pos hdtpos]
    simp only [ge_iff_le, gt_iff_lt]
    constructor
    · intro hcond
      split_ifs with h1 h2 h3
      · rfl
      · rfl
      · rfl
      · exfalso
        rcases hcond with h | h | h
        · exact h1 h
        · exact h2 ⟨h.1, h.2⟩
        · exact h3 ⟨h.1, h.2⟩
    · intro hncond
      split_ifs with h1 h2 h3
      · exact absurd (Or.inl h1) hncond
      · exact absurd (Or.inr (Or.inl ⟨h2.1, h2.2⟩)) hncond
      · exact absurd (Or.inr (Or.inr ⟨h3.1, h3.2⟩)) hncond
      · rfl
  · intro hdtnp
    rw [if_neg (by linarith)]

/-- Witness for C1 at a concrete call: integral 0, error 1, dt 30,
candidate 45 is strictly inside (0, 100), so the integral becomes 30. -/
theorem pid_integral_antiwindup_witness :
    (pidUpdate (mkPIDController 30 (1 / 2) 10 (1 / 50)) 0 21 20 none (some 30)).2.integral = 30 := by
  have h :=
    (pid_integral_antiwindup (mkPIDController 30 (1 / 2) 10 (1 / 50)) 0 21 20 none (some 30)
      1 30 45 (by norm_num) (by norm_num [resolveDt]) (by norm_num [mkPIDController]))
  have h2 := (h.1 (by norm_num)).1 (by norm_num)
  rw [h2]
  norm_num [mkPIDController]

/-- C2 counterexample: with `min_egress=25`, `max_egress=55`,
`min_ignition_level=20` and a fresh controller state, `max_demand=20`
yields target `25 + (20/100)·(55-25) = 31`, not 25 as the claim states. -/
theorem demand_curve_boundary_claim_false :
    ¬ ((calculateTargetFlowTemp (mkHeaterConfig 25 55 20) initialHeaterState 20
        none none false none 0).1 = 25) := by
  norm_num [calculateTargetFlowTemp, mkHeaterConfig, initialHeaterState, checkCooldown,
    effectiveMaxFlow, burnerShouldStayOn, burnerShouldStayOff, MIN_EFFICIENT_DELTA_T]

/-- C2 amended: with `min_egress=25`, `max_egress=55`,
`min_ignition_level=20`, from a fresh state, `max_demand=19` gives target 0,
`max_demand=20` gives target 31 (the linear curve value, not 25),
`max_demand=100` gives 55 and `max_demand=60` gives 43. -/
theorem demand_curve_boundary_amended :
    (calculateTargetFlowTemp (mkHeaterConfig 25 55 20) initialHeaterState 19
      none none false none 0).1 = 0 ∧
    (calculateTargetFlowTemp (mkHeaterConfig 25 55 20) initialHeaterState 20
      none none false none 0).1 = 31 ∧
    (calculateTargetFlowTemp (mkHeaterConfig 25 55 20) initialHeaterState 100
      none none false none 0).1 = 55 ∧
    (calculateTargetFlowTemp (mkHeaterConfig 25 55 20) initialHeaterState 60
      none none false none 0).1 = 43 := by
  refine ⟨?_, ?_, ?_, ?_⟩ <;>
    norm_num [calculateTargetFlowTemp, mkHeaterConfig, initialHeaterState, checkCooldown,
      effectiveMaxFlow, burnerShouldStayOn, burnerShouldStayOff, MIN_EFFICIENT_DELTA_T]

/-- C3 counterexample: cooldown is reported active (delta-T 2 < 5 while the
heater was active and demand is 100), yet because the burner started less
than `min_burner_runtime` minutes ago the returned target is 55, not 0. -/
theorem cooldown_forces_off_claim_false :
    (calculateTargetFlowTemp (mkHeaterConfig 25 55 20) ⟨true, false, some 0, none⟩ 100
      (some 30) (some 28) false none 0).2.1 = true ∧
    ¬ ((calculateTargetFlowTemp (mkHeaterConfig 25 55 20) ⟨true, false, some 0, none⟩ 100
      (some 30) (some 28) false none 0).1 = 0) := by
  refine ⟨?_, ?_⟩ <;>
    norm_num [calculateTargetFlowTemp, mkHeaterConfig, checkCooldown,
      effectiveMaxFlow, burnerShouldStayOn, burnerShouldStayOff, MIN_EFFICIENT_DELTA_T]

/-- C3 amended: whenever the cooldown check reports cooldown active, the
returned target flow temperature is 0 — unless the minimum-burner-runtime
hold is in effect and the minimum-off-time hold is not, in which case the
demand-curve target is returned instead. -/
theorem cooldown_target_amended (cfg : HeaterConfig) (st : HeaterState) (maxDemand : ℚ)
    (flowTemp returnTemp : Option ℚ) (quietModeActive : Bool)
    (firstBlockStartTime : Option ℚ) (now : ℚ)
    (hcool : (calculateTargetFlowTemp cfg st maxDemand flowTemp returnTemp quietModeActive
        firstBlockStartTime now).2.1 = true) :
    (calculateTargetFlowTemp cfg st maxDemand flowTemp returnTemp quietModeActive
        firstBlockStartTime now).1 =
      (if burnerShouldStayOn cfg st now && !burnerShouldStayOff cfg st now then
        cfg.min_egress + maxDemand / 100 *
          (effectiveMaxFlow cfg quietModeActive firstBlockStartTime now - cfg.min_egress)
      else 0) := by
  have hc : checkCooldown cfg st.cooldown_active flowTemp returnTemp maxDemand
      st.heater_was_active = true := hcool
  cases hso : burnerShouldStayOn cfg st now <;>
    cases hsf : burnerShouldStayOff cfg st now <;>
      simp [calculateTargetFlowTemp, hc, hso, hsf]

/-- Witness for C3 amended at the concrete cooldown-plus-runtime-hold call:
the demand-curve value 55 is returned. -/
theorem cooldown_target_amended_witness :
    (calculateTargetFlowTemp (mkHeaterConfig 25 55 20) ⟨true, false, some 0, none⟩ 100
      (some 30) (some 28) false none 0).1 = 55 := by
  have h := cooldown_target_amended (mkHeaterConfig 25 55 20) ⟨true, false, some 0, none⟩ 100
    (some 30) (some 28) false none 0
    (by norm_num [calculateTargetFlowTemp, mkHeaterConfig, checkCooldown,
      effectiveMaxFlow, burnerShouldStayOn, burnerShouldStayOff, MIN_EFFICIENT_DELTA_T])
  rw [h]
  norm_num [mkHeaterConfig, effectiveMaxFlow, burnerShouldStayOn, burnerShouldStayOff]

/-- C4: `get_current_setpoint` returns the active-block temperature exactly
when the queried time lies in some block of the day (same-day membership
`from ≤ t < to`, overnight membership `t ≥ from ∨ t < to` when
`from > to`) and the default setpoint otherwise; for a Monday 07:00-09:00
block with temperature 21 and default 18 it returns 21 at Monday 08:00 and
18 at Monday 06:59 and at Monday 09:00 (exclusive end), the per-block-
temperature lookup of the heating_pid variant agreeing on the same block. -/
theorem schedule_current_setpoint :
    (∀ (defaultSetpoint activeSetpoint : ℚ) (sched : Fin 7 → List ScheduleBlock)
        (weekday : Fin 7) (timeOfDay : ℕ),
      getCurrentSetpoint defaultSetpoint activeSetpoint (some sched) weekday timeOfDay =
        (if ∃ b ∈ sched weekday,
            (b.fromTime ≤ timeOfDay ∧ timeOfDay < b.toTime) ∨
              (b.toTime < b.fromTime ∧ (b.fromTime ≤ timeOfDay ∨ timeOfDay < b.toTime))
         then activeSetpoint else defaultSetpoint)) ∧
    getCurrentSetpoint 18 21 (some mondaySched) 0 28800 = 21 ∧
    getCurrentSetpoint 18 21 (some mondaySched) 0 25140 = 18 ∧
    getCurrentSetpoint 18 21 (some mondaySched) 0 32400 = 18 ∧
    getBlockTemperature 18 mondayDataSched 0 28800 = some 21 ∧
    getBlockTemperature 18 mondayDataSched 0 25140 = none ∧
    getBlockTemperature 18 mondayDataSched 0 32400 = none := by
  refine ⟨fun d a sched wd t => ?_, rfl, rfl, rfl, rfl, rfl, rfl⟩
  unfold getCurrentSetpoint isTimeInSchedule
  refine if_congr ?_ rfl rfl
  simp [List.any_eq_true, timeInBlock]

/-- C6: a tracked warmup cycle reaching its target with temperature rise
above 0.5 °C updates the factor to `0.3·(elapsed/rise) + 0.7·old`; the
blend contracts the distance to the measured value by exactly the factor
0.7 at each application, hence over any number of repeated identical
cycles the distance shrinks geometrically. -/
theorem warmup_learning_blend :
    (∀ (z : WarmupZone) (targetSetpoint now t0 startTemp currentTemp : ℚ),
      z.current_temp = some currentTemp →
      z.warmup_started_at = some t0 →
      z.warmup_start_temp = some startTemp →
      targetSetpoint - currentTemp ≤ 1 / 5 →
      1 / 2 < currentTemp - startTemp →
      (trackWarmupLearning z targetSetpoint now).warmup_factor =
        blendWarmupFactor ((now - t0) / (currentTemp - startTemp)) z.warmup_factor) ∧
    (∀ measured oldFactor : ℚ,
      |blendWarmupFactor measured oldFactor - measured| = 7 / 10 * |oldFactor - measured|) ∧
    (∀ (n : ℕ) (measured startFactor : ℚ),
      |(fun f => blendWarmupFactor measured f)^[n] startFactor - measured| =
        (7 / 10) ^ n * |startFactor - measured|) := by
  have hstep : ∀ m g : ℚ, |blendWarmupFactor m g - m| = 7 / 10 * |g - m| := by
    intro m g
    have h : blendWarmupFactor m g - m = 7 / 10 * (g - m) := by
      unfold blendWarmupFactor
      ring
    rw [h, abs_mul]
    norm_num
  refine ⟨?_, hstep, ?_⟩
  · intro z targetSetpoint now t0 startTemp currentTemp hct hst hsp hat hrise
    obtain ⟨wf, ws, wst, wtt, dem, ct⟩ := z
    simp only at hct hst hsp
    subst hct
    subst hst
    subst hsp
    simp only [trackWarmupLearning, cancelTracking, Option.isSome_some, Bool.and_true,
      decide_eq_true_eq, Option.getD_some]
    rw [if_pos (show targetSetpoint - currentTemp ≤ 1 / 5 from hat),
      if_pos (show 1 / 2 < currentTemp - startTemp from hrise)]
  · intro n m f
    induction n with
    | zero => simp
    | succ n ih =>
      rw [Function.iterate_succ_apply', hstep, ih, pow_succ]
      ring

/-- Witness for C6: a cycle of 20 minutes for a 2 °C rise (measured factor
10) moves the factor from 20 to `0.3·10 + 0.7·20 = 17`, closing exactly
30 % of the gap to 10. -/
theorem warmup_learning_blend_witness :
    (trackWarmupLearning ⟨20, some 0, some 18, some 20, 50, some 20⟩ 20 20).warmup_factor = 17 := by
  have h := warmup_learning_blend.1 ⟨20, some 0, some 18, some 20, 50, some 20⟩ 20 20 0 18 20
    rfl rfl rfl (by norm_num) (by norm_num)
  rw [h]
  norm_num [blendWarmupFactor]

/-- C5: when at least two zones have collected (windowed) required start
times and their spread is within the 45-minute lookahead, the pass leaves
`sync_forced` true exactly on the collected zones whose required start is
strictly after the earliest one (so every collected zone except the
earliest-required one is marked); and a sync-forced zone in setback with
known next-block data resolves to immediate preheat (adaptive start active
at the target temperature). -/
theorem synchronization_marks_later (now : ℚ) (zones : List SyncZone)
    (earliestStart latestStart : ℚ)
    (hlen : 1 < (zones.filterMap (collectedStartTime now)).length)
    (hmin : (zones.filterMap (collectedStartTime now)).min? = some earliestStart)
    (hmax : (zones.filterMap (collectedStartTime now)).max? = some latestStart)
    (hspread : latestStart - earliestStart ≤ SYNC_LOOK_AHEAD) :
    ((applySynchronization now zones).map fun z => z.sync_forced) =
      (zones.map fun z => (collectedStartTime now z).any fun t => decide (earliestStart < t)) ∧
    (∀ (awayTemp scheduledSetpoint currentTemp warmupFactor defaultSetpoint
        timeToActiveVal targetVal : ℚ),
      resolveZoneSetpoint false awayTemp none true scheduledSetpoint false
        (some timeToActiveVal) (some targetVal) true currentTemp warmupFactor defaultSetpoint =
        ⟨targetVal, true⟩) := by
  constructor
  · unfold applySynchronization
    rw [if_pos hlen, hmin, hmax]
    dsimp only
    rw [if_pos hspread, List.map_map, List.map_map]
    refine List.map_congr_left fun z _ => ?_
    simp only [Function.comp_apply, collectedStartTime_reset]
    cases hcs : collectedStartTime now z with
    | none => simp [hcs]
    | some t =>
      by_cases hlt : earliestStart < t
      · simp [hcs, hlt]
      · simp [hcs, hlt]
  · intro awayTemp scheduledSetpoint currentTemp warmupFactor defaultSetpoint tta tv
    rfl

/-- Witness for C5: zones needing to start at `now + 10` and `now + 40`
minutes — the later zone is marked `sync_forced`, the earlier one is not. -/
theorem synchronization_marks_later_witness :
    ((applySynchronization 0 [zoneA, zoneB]).map fun z => z.sync_forced) = [false, true] ∧
    resolveZoneSetpoint false 15 none true 18 false (some 60) (some 20) true 19 20 18 =
      ⟨20, true⟩ := by
  have hA : collectedStartTime 0 zoneA = some 10 := by
    norm_num [collectedStartTime, requiredStartTime, zoneA, SYNC_LOOK_AHEAD]
  have hB : collectedStartTime 0 zoneB = some 40 := by
    norm_num [collectedStartTime, requiredStartTime, zoneB, SYNC_LOOK_AHEAD]
  have hfm : ([zoneA, zoneB].filterMap (collectedStartTime 0)) = [10, 40] := by
    simp [List.filterMap_cons, hA, hB]
  have h := synchronization_marks_later 0 [zoneA, zoneB] 10 40
    (by rw [hfm]; norm_num)
    (by rw [hfm]; norm_num [List.min?, min_def])
    (by rw [hfm]; norm_num [List.max?, max_def])
    (by norm_num [SYNC_LOOK_AHEAD])
  refine ⟨?_, h.2 15 18 19 20 18 60 20⟩
  rw [h.1]
  simp [hA, hB]
  norm_num

/-- C8: two PID runs from states agreeing on gains, integral and derivative
history, fed the identical input sequence with `dt` supplied explicitly on
every call, produce identical output sequences and identical final
integral and last-process-variable values, whatever wall-clock readings
the two runs observe. -/
theorem pid_determinism (s1 s2 : PIDState) (inputs : List PIDInput)
    (clocks1 clocks2 : List ℚ) (h : pidObs s1 = pidObs s2) :
    (pidRun s1 inputs clocks1).1 = (pidRun s2 inputs clocks2).1 ∧
    (pidRun s1 inputs clocks1).2.integral = (pidRun s2 inputs clocks2).2.integral ∧
    (pidRun s1 inputs clocks1).2.last_pv = (pidRun s2 inputs clocks2).2.last_pv := by
  induction inputs generalizing s1 s2 clocks1 clocks2 with
  | nil =>
    obtain ⟨kp1, ki1, kd1, ke1, i1, lp1, lt1, lo1⟩ := s1
    obtain ⟨kp2, ki2, kd2, ke2, i2, lp2, lt2, lo2⟩ := s2
    simp only [pidObs, Prod.mk.injEq] at h
    exact ⟨rfl, h.2.2.2.2.1, h.2.2.2.2.2⟩
  | cons i rest ih =>
    have hstep := pidUpdate_deterministic s1 s2 h (clocks1.headD 0) (clocks2.headD 0)
      i.setpoint i.processVariable i.outdoorTemp i.dt
    have hrest := ih _ _ clocks1.tail clocks2.tail hstep.2
    simp only [pidRun]
    exact ⟨by rw [hstep.1, hrest.1], hrest.2.1, hrest.2.2⟩

/-- Witness for C8: the same two-call input sequence fed to a fresh
controller and to one whose (invisible) `last_time`/`last_output` differ,
under different clock sequences, yields the same outputs. -/
theorem pid_determinism_witness :
    (pidRun (mkPIDController 30 (1 / 2) 10 (1 / 50))
        [⟨21, 20, none, 30⟩, ⟨21, 41 / 2, some 5, 30⟩] [0, 30]).1 =
      (pidRun ⟨30, 1 / 2, 10, 1 / 50, 0, none, some 99, 42⟩
        [⟨21, 20, none, 30⟩, ⟨21, 41 / 2, some 5, 30⟩] [7, 1000]).1 :=
  (pid_determinism (mkPIDController 30 (1 / 2) 10 (1 / 50))
    ⟨30, 1 / 2, 10, 1 / 50, 0, none, some 99, 42⟩
    [⟨21, 20, none, 30⟩, ⟨21, 41 / 2, some 5, 30⟩] [0, 30] [7, 1000] rfl).1

/-- C10: away mode never activates without a configured presence entity; a
tick that reports home clears away mode and the presence-lost timestamp at
once; and whenever a run from the initial state ends with away mode
active, the recorded timestamp marks the first tick that observed the
absence (with no home report afterwards) and some tick observed absence at
least `away_delay` minutes after it. -/
theorem away_mode_presence (awayDelay : ℚ) :
    (∀ events, (runAwayMode false awayDelay initialAwayState events).away_mode_active = false) ∧
    (∀ (s : AwayState) (stateStr : String) (now : ℚ), isHomeState stateStr = true →
      updateAwayMode true awayDelay s (some stateStr) now = ⟨false, none⟩) ∧
    (∀ events, (runAwayMode true awayDelay initialAwayState events).away_mode_active = true →
      ∃ t0, (runAwayMode true awayDelay initialAwayState events).presence_lost_at = some t0 ∧
        firstAbsenceAt awayDelay events t0 ∧ awayActivationJustified awayDelay events t0) := by
  refine ⟨?_, ?_, ?_⟩
  · have haux : ∀ (events : List (Option String × ℚ)) (s : AwayState),
        s.away_mode_active = false →
        (runAwayMode false awayDelay s events).away_mode_active = false := by
      intro events
      induction events with
      | nil => exact fun s hs => hs
      | cons e rest ih => exact fun s hs => ih _ (by simp [updateAwayMode])
    exact fun events => haux events initialAwayState rfl
  · intro s stateStr now hh
    simp [updateAwayMode, hh]
  · intro events hactive
    obtain ⟨t0, hlost, hjust⟩ := (away_mode_invariant awayDelay events).2 hactive
    exact ⟨t0, hlost, (away_mode_invariant awayDelay events).1 t0 hlost, hjust⟩

/-- Witness for C10 with a 30-minute delay: two not-home ticks 30 minutes
apart activate away mode with all three properties instantiated, no-entity
runs stay inactive, and a home tick clears the state. -/
theorem away_mode_presence_witness :
    (runAwayMode false 30 initialAwayState
      [(some "not_home", 0), (some "not_home", 45)]).away_mode_active = false ∧
    updateAwayMode true 30 ⟨true, some 0⟩ (some "home") 5 = ⟨false, none⟩ ∧
    ∃ t0, (runAwayMode true 30 initialAwayState
        [(some "not_home", 0), (some "not_home", 30)]).presence_lost_at = some t0 ∧
      firstAbsenceAt 30 [(some "not_home", 0), (some "not_home", 30)] t0 ∧
      awayActivationJustified 30 [(some "not_home", 0), (some "not_home", 30)] t0 := by
  have hnh : isHomeState "not_home" = false := rfl
  have h1 : updateAwayMode true 30 initialAwayState (some "not_home") 0 = ⟨false, some 0⟩ := by
    norm_num [updateAwayMode, initialAwayState, hnh]
  have h2 : updateAwayMode true 30 ⟨false, some 0⟩ (some "not_home") 30 = ⟨true, some 0⟩ := by
    norm_num [updateAwayMode, hnh]
  have hrun : runAwayMode true 30 initialAwayState
      [(some "not_home", 0), (some "not_home", 30)] = ⟨true, some 0⟩ := by
    simp [runAwayMode, h1, h2]
  exact ⟨(away_mode_presence 30).1 _, (away_mode_presence 30).2.1 _ _ _ rfl,
    (away_mode_presence 30).2.2 _ (by rw [hrun])⟩

/-- C7: on zone initialization a stored PID integral within ±300 is
restored verbatim, one exceeding ±300 is discarded and the controller
starts with integral 0 (as it also does when nothing was stored). -/
theorem restored_integral_validation (kp ki kd ke v : ℚ) :
    (|v| ≤ 300 → (initZonePid kp ki kd ke (some v)).integral = v) ∧
    (300 < |v| → (initZonePid kp ki kd ke (some v)).integral = 0) ∧
    (initZonePid kp ki kd ke none).integral = 0 := by
  refine ⟨fun h => ?_, fun h => ?_, rfl⟩
  · show restoredPidIntegral (some v) = v
    simp [restoredPidIntegral, MAX_REASONABLE_INTEGRAL, h]
  · show restoredPidIntegral (some v) = 0
    simp [restoredPidIntegral, MAX_REASONABLE_INTEGRAL, not_le.mpr h]

/-- Witness for C7: 250 is restored, 400 is reset to 0. -/
theorem restored_integral_validation_witness :
    (initZonePid 30 (1 / 2) 10 (1 / 50) (some 250)).integral = 250 ∧
    (initZonePid 30 (1 / 2) 10 (1 / 50) (some 400)).integral = 0 :=
  ⟨(restored_integral_validation 30 (1 / 2) 10 (1 / 50) 250).1 (by norm_num),
   (restored_integral_validation 30 (1 / 2) 10 (1 / 50) 400).2.1 (by norm_num)⟩

/-- C9: `check_maintenance_needed` can return true only when the hour of
day is 14 (`VALVE_MAINTENANCE_HOUR`); at any other hour it returns false
regardless of inactivity duration and of the pending flag. -/
theorem maintenance_hour_gate :
    (∀ (lastValveActivity : Option ℚ) (maintenancePending : Bool) (nowHour : ℕ)
        (nowMinutes : ℚ), nowHour ≠ 14 →
      checkMaintenanceNeeded lastValveActivity maintenancePending nowHour nowMinutes = false) ∧
    (∀ (lastValveActivity : Option ℚ) (maintenancePending : Bool) (nowHour : ℕ)
        (nowMinutes : ℚ),
      checkMaintenanceNeeded lastValveActivity maintenancePending nowHour nowMinutes = true →
        nowHour = 14) := by
  constructor
  · intro la mp h m hne
    simp [checkMaintenanceNeeded, VALVE_MAINTENANCE_HOUR, hne]
  · intro la mp h m htrue
    by_contra hne
    simp [checkMaintenanceNeeded, VALVE_MAINTENANCE_HOUR, hne] at htrue

/-- Witness for C9: a valve inactive for 14 days with no pending
maintenance is still refused at hour 13. -/
theorem maintenance_hour_gate_witness :
    checkMaintenanceNeeded (some 0) false 13 20160 = false :=
  maintenance_hour_gate.1 (some 0) false 13 20160 (by decide)

end HeatingPid



